import Mathlib

/-!
Verification of `example/assets/get_inputs.py`, a small ONNX model-input
inspection script.  After loading the onnx library, the script is:

  model = onnx.load("./models/lama_fp32.onnx")
  print("Model Inputs:")
  for input_tensor in model.graph.input:
      print(f"- Name: ..name..")
      print(f"- Shape: ..shape.dim..")
      print(f"- Type: ..elem_type..")

We shallow-embed the ONNX protobuf records the script reads, model the
external `onnx.load` call from the specification, and embed the script as a
pure function from an invocation environment (file-system contents,
command-line arguments, environment variables) to a run result carrying an
effect trace, an exit code and the propagated failure, if any.
-/

/-- One dimension of a tensor shape: either a fixed integer `dim_value` or a
symbolic `dim_param` placeholder (protobuf `TensorShapeProto.Dimension`). -/
inductive Dim where
  | dim_value (v : Int)
  | dim_param (p : String)
deriving DecidableEq, Repr

/-- Protobuf `TensorShapeProto`: an ordered list of dimensions. -/
structure TensorShapeProto where
  dim : List Dim
deriving DecidableEq, Repr

/-- Protobuf `TypeProto.Tensor`: element-type code plus shape.  The field
`elem_type` is the raw enumerated code (e.g. `1` for 32-bit float). -/
structure TensorTypeProto where
  elem_type : Nat
  shape : TensorShapeProto
deriving DecidableEq, Repr

/-- Protobuf `TypeProto`, of which the script only reads `tensor_type`. -/
structure TypeProto where
  tensor_type : TensorTypeProto
deriving DecidableEq, Repr

/-- Protobuf `ValueInfoProto`: one declared input tensor descriptor with a
name and a type. -/
structure ValueInfoProto where
  name : String
  type : TypeProto
deriving DecidableEq, Repr

/-- Protobuf `GraphProto`, of which the script only reads the declared input
list `input`. -/
structure GraphProto where
  input : List ValueInfoProto
deriving DecidableEq, Repr

/-- Protobuf `ModelProto`: the in-memory model produced by `onnx.load`. -/
structure ModelProto where
  graph : GraphProto
deriving DecidableEq, Repr

/-- Contents found at a path in the file system: either a file that
deserializes to a valid model, or malformed bytes that do not. -/
inductive FileData where
  | validModel (m : ModelProto)
  | malformed (bytes : List Nat)
deriving DecidableEq, Repr

/-- Modelled from the spec: the failure raised by the external parsing
library, "whatever the external parsing library raises".  A missing file
gives a file-not-found style failure, an existing but malformed file gives a
parse failure. -/
inductive LoadError where
  | fileNotFound (path : String)
  | parseError (path : String)
deriving DecidableEq, Repr

/-- Modelled from the spec: the external library call `onnx.load`, which is
not part of this repository.  Per the spec it "fails if the file does not
exist or is not a valid serialized model" and otherwise yields the
deserialized in-memory model. -/
def onnx_load (files : String → Option FileData) (path : String) :
    Except LoadError ModelProto :=
  match files path with
  | none => Except.error (LoadError.fileNotFound path)
  | some (FileData.validModel m) => Except.ok m
  | some (FileData.malformed _) => Except.error (LoadError.parseError path)

/-- The invocation environment of the script: the file system it runs
against, its command-line arguments and its environment variables. -/
structure Env where
  files : String → Option FileData
  argv : List String
  envVars : String → Option String

/-- An observable effect of one run of the script. -/
inductive Effect where
  | stdoutWrite (s : String)
  | fileRead (path : String)
  | fileWrite (path : String)
  | network
  | mutateModel
deriving DecidableEq, Repr

/-- The result of one run: the effect trace in order, the process exit code
(nonzero-on-unhandled-failure is modelled from the spec), and the propagated
failure, if any. -/
structure RunResult where
  trace : List Effect
  exitCode : Nat
  err : Option LoadError
deriving DecidableEq

/-- The hard-coded model path inside the script. -/
def modelPath : String := "./models/lama_fp32.onnx"

/-- Rendering of one shape dimension, following the protobuf text format the
Python `str()` of a `Dimension` message produces. -/
def dimStr : Dim → String
  | Dim.dim_value v => "dim_value: " ++ toString v ++ "\n"
  | Dim.dim_param p => "dim_param: \x22" ++ p ++ "\x22\n"

/-- Rendering of the repeated `shape.dim` field, as the Python f-string
interpolation of the repeated-field container produces it. -/
def dimListStr (ds : List Dim) : String :=
  "[" ++ String.intercalate (", ") (ds.map dimStr) ++ "]"

/-- The three lines the loop body prints for one input tensor descriptor. -/
def tensorBlock (t : ValueInfoProto) : List String :=
  ["- Name: " ++ t.name,
   "- Shape: " ++ dimListStr t.type.tensor_type.shape.dim,
   "- Type: " ++ toString t.type.tensor_type.elem_type]

/-- All lines the script prints for a successfully loaded model: the header
followed by the loop over `model.graph.input`. -/
def scriptOutput (m : ModelProto) : List String :=
  "Model Inputs:" :: m.graph.input.flatMap tensorBlock

/-- The whole script.  It reads the hard-coded path; on load failure the
failure propagates unmodified (there is no handler in the script) and the
process terminates with a nonzero status having printed nothing; on success
it prints the header and then one block per declared input, in order. -/
def runScript (env : Env) : RunResult :=
  match onnx_load env.files modelPath with
  | Except.error e =>
      { trace := [Effect.fileRead modelPath], exitCode := 1, err := some e }
  | Except.ok m =>
      { trace := Effect.fileRead modelPath ::
          (scriptOutput m).map Effect.stdoutWrite,
        exitCode := 0, err := none }

/-- The lines written to standard output during a run, in order. -/
def stdoutOf : Effect → Option String
  | Effect.stdoutWrite s => some s
  | _ => none

/-- The standard-output lines of a run result. -/
def stdoutLines (r : RunResult) : List String :=
  r.trace.filterMap stdoutOf

/-- The exact text a run writes to standard output: each printed line
followed by a newline, concatenated. -/
def stdoutText (r : RunResult) : String :=
  String.join ((stdoutLines r).map (fun s => s ++ "\n"))

/-- Modelled from the spec: the second copy of the inspection script, which
is not under `src/`; per the spec the two copies are "near-duplicates
differing only in comment text about virtual-environment creation commands",
so its executable statements are the same as `runScript`'s. -/
def runScript2 (env : Env) : RunResult :=
  match onnx_load env.files modelPath with
  | Except.error e =>
      { trace := [Effect.fileRead modelPath], exitCode := 1, err := some e }
  | Except.ok m =>
      { trace := Effect.fileRead modelPath ::
          (scriptOutput m).map Effect.stdoutWrite,
        exitCode := 0, err := none }

/-- The known valid model of the spec: inputs `input_0` and `mask`, shapes
`(1,3,256,256)` and `(1,1,256,256)`, element type code `1` (FLOAT32). -/
def sampleModel : ModelProto :=
  { graph :=
    { input :=
      [{ name := "input_0",
         type := { tensor_type :=
           { elem_type := 1,
             shape := { dim := [Dim.dim_value 1, Dim.dim_value 3,
                                Dim.dim_value 256, Dim.dim_value 256] } } } },
       { name := "mask",
         type := { tensor_type :=
           { elem_type := 1,
             shape := { dim := [Dim.dim_value 1, Dim.dim_value 1,
                                Dim.dim_value 256, Dim.dim_value 256] } } } }] } }

/-- A file system holding the sample model at the hard-coded path. -/
def sampleFiles : String → Option FileData :=
  fun p => if p = modelPath then some (FileData.validModel sampleModel) else none

/-- An invocation environment with the sample model in place. -/
def envSample : Env :=
  { files := sampleFiles, argv := [], envVars := fun _ => none }

/-- An invocation environment with no files at all. -/
def envNoFile : Env :=
  { files := fun _ => none, argv := [], envVars := fun _ => none }

/-- An invocation environment with a malformed file at the hard-coded path. -/
def envMalformed : Env :=
  { files := fun p => if p = modelPath then some (FileData.malformed [0]) else none,
    argv := [], envVars := fun _ => none }

/-- An invocation environment with the sample model in place but different
command-line arguments and environment variables than `envSample`. -/
def envSampleArgs : Env :=
  { files := sampleFiles, argv := ["--verbose"],
    envVars := fun v => if v = ("HOME") then some ("/root") else none }

/-- A valid model whose input declaration list is empty. -/
def emptyModel : ModelProto := { graph := { input := [] } }

/-- An invocation environment holding the empty-input model. -/
def envEmptyModel : Env :=
  { files := fun p => if p = modelPath then some (FileData.validModel emptyModel) else none,
    argv := [], envVars := fun _ => none }

/-- Writing line by line, the script's stdout recovers exactly the printed
lines from the effect trace. -/
theorem filterMap_stdoutOf_map (l : List String) :
    (l.map Effect.stdoutWrite).filterMap stdoutOf = l := by
  induction l with
  | nil => rfl
  | cons a l ih => simp [stdoutOf, ih]

/-- On a successful load, the stdout lines of a run are `scriptOutput` of the
loaded model. -/
theorem stdoutLines_ok (env : Env) (m : ModelProto)
    (h : onnx_load env.files modelPath = Except.ok m) :
    stdoutLines (runScript env) = scriptOutput m := by
  unfold runScript
  rw [h]
  simp only [stdoutLines, List.filterMap_cons, stdoutOf]
  exact filterMap_stdoutOf_map (scriptOutput m)

/-- A string starting with a character other than `M` is not the header. -/
theorem append_ne_header (pre s : String) (c : Char) (rest : List Char)
    (hp : pre.data = c :: rest) (hc : ¬ c = 'M') :
    pre ++ s ≠ ("Model Inputs:") := by
  intro h
  have hd : (pre ++ s).data = ("Model Inputs:").data := congrArg String.data h
  rw [String.data_append pre s, hp, List.cons_append] at hd
  have hM : ("Model Inputs:").data =
      'M' :: ['o', 'd', 'e', 'l', ' ', 'I', 'n', 'p', 'u', 't', 's', ':'] := rfl
  rw [hM] at hd
  injection hd with h1 _
  exact hc h1

/-- No line of a tensor block equals the header line. -/
theorem tensorBlock_ne_header (t : ValueInfoProto) (l : String)
    (hl : l ∈ tensorBlock t) : l ≠ ("Model Inputs:") := by
  simp only [tensorBlock, List.mem_cons, List.not_mem_nil, or_false] at hl
  rcases hl with h | h | h <;> subst h
  · exact append_ne_header ("- Name: ") t.name '-'
      [' ', 'N', 'a', 'm', 'e', ':', ' '] rfl (by decide)
  · exact append_ne_header ("- Shape: ") (dimListStr t.type.tensor_type.shape.dim) '-'
      [' ', 'S', 'h', 'a', 'p', 'e', ':', ' '] rfl (by decide)
  · exact append_ne_header ("- Type: ") (toString t.type.tensor_type.elem_type) '-'
      [' ', 'T', 'y', 'p', 'e', ':', ' '] rfl (by decide)

/-- The loop prints exactly three lines per declared input. -/
theorem flatMap_tensorBlock_length (l : List ValueInfoProto) :
    (l.flatMap tensorBlock).length = 3 * l.length := by
  induction l with
  | nil => rfl
  | cons t ts ih =>
    simp [tensorBlock, ih]
    ring

/-- Skipping one leading block of three lines shifts the index by three. -/
theorem flatMap_tensorBlock_step (u : ValueInfoProto) (us : List ValueInfoProto)
    (n : Nat) :
    ((u :: us).flatMap tensorBlock)[n + 3]? = (us.flatMap tensorBlock)[n]? := by
  rw [List.flatMap_cons]
  rw [List.getElem?_append_right (by simp [tensorBlock])]
  simp [tensorBlock]

/-- The block of the `i`-th declared input occupies lines `3*i`, `3*i+1`,
`3*i+2` of the loop's output and holds its name, shape list and type code. -/
theorem flatMap_tensorBlock_get (l : List ValueInfoProto) (i : Nat)
    (t : ValueInfoProto) (h : l[i]? = some t) :
    (l.flatMap tensorBlock)[3 * i]? = some ("- Name: " ++ t.name) ∧
    (l.flatMap tensorBlock)[3 * i + 1]? =
      some ("- Shape: " ++ dimListStr t.type.tensor_type.shape.dim) ∧
    (l.flatMap tensorBlock)[3 * i + 2]? =
      some ("- Type: " ++ toString t.type.tensor_type.elem_type) := by
  induction l generalizing i with
  | nil => simp at h
  | cons u us ih =>
    cases i with
    | zero =>
      simp only [List.getElem?_cons_zero, Option.some.injEq] at h
      subst h
      simp [tensorBlock]
    | succ j =>
      have hj : us[j]? = some t := by simpa using h
      have h5 : 3 * (j + 1) + 2 = 3 * j + 2 + 3 := by ring
      have h4 : 3 * (j + 1) + 1 = 3 * j + 1 + 3 := by ring
      have h3 : 3 * (j + 1) = 3 * j + 3 := by ring
      rw [h5, h4, h3, flatMap_tensorBlock_step, flatMap_tensorBlock_step,
        flatMap_tensorBlock_step]
      exact ih j hj

/-- The trace of a run is the file read alone (on failure) or the file read
followed by the printed lines (on success). -/
theorem runScript_trace_shape (env : Env) :
    (runScript env).trace = [Effect.fileRead modelPath] ∨
    ∃ m, onnx_load env.files modelPath = Except.ok m ∧
      (runScript env).trace = Effect.fileRead modelPath ::
        (scriptOutput m).map Effect.stdoutWrite := by
  cases h : onnx_load env.files modelPath with
  | error e =>
    left
    simp [runScript, h]
  | ok m =>
    right
    exact ⟨m, rfl, by simp [runScript, h]⟩

/-- C1: For every successfully loaded model, the script writes one printed
block per declared input tensor, in exactly the order the inputs appear in
the model's input declaration list, and each block contains that input's
name, its shape-dimension list, and its element-type code. -/
theorem claim_C1 (env : Env) (m : ModelProto)
    (h : onnx_load env.files modelPath = Except.ok m) :
    ∃ out, stdoutLines (runScript env) = "Model Inputs:" :: out ∧
      out.length = 3 * m.graph.input.length ∧
      ∀ i t, m.graph.input[i]? = some t →
        out[3 * i]? = some ("- Name: " ++ t.name) ∧
        out[3 * i + 1]? =
          some ("- Shape: " ++ dimListStr t.type.tensor_type.shape.dim) ∧
        out[3 * i + 2]? =
          some ("- Type: " ++ toString t.type.tensor_type.elem_type) := by
  refine ⟨m.graph.input.flatMap tensorBlock, ?_,
    flatMap_tensorBlock_length m.graph.input, ?_⟩
  · rw [stdoutLines_ok env m h]
    rfl
  · intro i t ht
    exact flatMap_tensorBlock_get m.graph.input i t ht

/-- Witness for C1 at the sample environment and sample model. -/
theorem claim_C1_witness :
    ∃ out, stdoutLines (runScript envSample) = "Model Inputs:" :: out ∧
      out.length = 3 * sampleModel.graph.input.length ∧
      ∀ i t, sampleModel.graph.input[i]? = some t →
        out[3 * i]? = some ("- Name: " ++ t.name) ∧
        out[3 * i + 1]? =
          some ("- Shape: " ++ dimListStr t.type.tensor_type.shape.dim) ∧
        out[3 * i + 2]? =
          some ("- Type: " ++ toString t.type.tensor_type.elem_type) :=
  claim_C1 envSample sampleModel rfl

/-- C2: If loading fails because the file at the hard-coded path does not
exist, the failure raised by the external parsing library propagates
unmodified and the script produces no tensor-listing output. -/
theorem claim_C2 (env : Env) (h : env.files modelPath = none) :
    onnx_load env.files modelPath =
      Except.error (LoadError.fileNotFound modelPath) ∧
    (runScript env).err = some (LoadError.fileNotFound modelPath) ∧
    stdoutLines (runScript env) = [] := by
  have hl : onnx_load env.files modelPath =
      Except.error (LoadError.fileNotFound modelPath) := by
    unfold onnx_load
    rw [h]
  refine ⟨hl, ?_, ?_⟩
  · unfold runScript
    rw [hl]
  · unfold runScript
    rw [hl]
    rfl

/-- Witness for C2 at an environment with no files at all. -/
theorem claim_C2_witness :
    onnx_load envNoFile.files modelPath =
      Except.error (LoadError.fileNotFound modelPath) ∧
    (runScript envNoFile).err = some (LoadError.fileNotFound modelPath) ∧
    stdoutLines (runScript envNoFile) = [] :=
  claim_C2 envNoFile rfl

/-- C3: If the file at the hard-coded path exists but is not a valid
serialized model, invocation propagates a parse failure from the external
library, terminates with a non-zero status, and produces no tensor-listing
output. -/
theorem claim_C3 (env : Env) (bs : List Nat)
    (h : env.files modelPath = some (FileData.malformed bs)) :
    onnx_load env.files modelPath =
      Except.error (LoadError.parseError modelPath) ∧
    (runScript env).err = some (LoadError.parseError modelPath) ∧
    (runScript env).exitCode ≠ 0 ∧
    stdoutLines (runScript env) = [] := by
  have hl : onnx_load env.files modelPath =
      Except.error (LoadError.parseError modelPath) := by
    unfold onnx_load
    rw [h]
  refine ⟨hl, ?_, ?_, ?_⟩
  · unfold runScript
    rw [hl]
  · unfold runScript
    rw [hl]
    decide
  · unfold runScript
    rw [hl]
    rfl

/-- Witness for C3 at an environment with a malformed file in place. -/
theorem claim_C3_witness :
    onnx_load envMalformed.files modelPath =
      Except.error (LoadError.parseError modelPath) ∧
    (runScript envMalformed).err = some (LoadError.parseError modelPath) ∧
    (runScript envMalformed).exitCode ≠ 0 ∧
    stdoutLines (runScript envMalformed) = [] :=
  claim_C3 envMalformed [0] rfl

/-- C4: For the known valid model whose inputs are named `input_0` and
`mask` with shapes `(1,3,256,256)` and `(1,1,256,256)` and element type
FLOAT32 (code 1) for both, the script prints exactly two blocks, in that
order, each with the expected name, shape and type line. -/
theorem claim_C4 :
    stdoutLines (runScript envSample) =
      ["Model Inputs:",
       "- Name: input_0",
       "- Shape: [dim_value: 1\n, dim_value: 3\n, dim_value: 256\n, dim_value: 256\n]",
       "- Type: 1",
       "- Name: mask",
       "- Shape: [dim_value: 1\n, dim_value: 1\n, dim_value: 256\n, dim_value: 256\n]",
       "- Type: 1"] := by
  decide

/-- C5: The script is deterministic: any two invocations against the same
unchanged model file produce byte-identical standard-output text, whatever
else (arguments, environment variables) differs between the invocations. -/
theorem claim_C5 (env1 env2 : Env) (h : env1.files = env2.files) :
    stdoutText (runScript env1) = stdoutText (runScript env2) := by
  have hrun : runScript env1 = runScript env2 := by
    unfold runScript
    rw [h]
  rw [hrun]

/-- Witness for C5: two invocations with the same file system but different
arguments and environment variables. -/
theorem claim_C5_witness :
    stdoutText (runScript envSample) = stdoutText (runScript envSampleArgs) :=
  claim_C5 envSample envSampleArgs rfl

/-- C6: The script's only side effect is writing to standard output: every
run performs no file writes, no network access, no mutation of the loaded
model; it reads only the hard-coded model path, its result does not depend
on command-line arguments or environment variables, and the model path is
the fixed relative path inside the script. -/
theorem claim_C6 (env : Env) :
    (∀ ef, ef ∈ (runScript env).trace →
      (∃ s, ef = Effect.stdoutWrite s) ∨ ef = Effect.fileRead modelPath) ∧
    (∀ p, Effect.fileWrite p ∉ (runScript env).trace) ∧
    Effect.network ∉ (runScript env).trace ∧
    Effect.mutateModel ∉ (runScript env).trace ∧
    (∀ a1 a2 v1 v2,
      runScript { files := env.files, argv := a1, envVars := v1 } =
      runScript { files := env.files, argv := a2, envVars := v2 }) ∧
    modelPath = ("./models/lama_fp32.onnx") := by
  have hshape := runScript_trace_shape env
  refine ⟨?_, ?_, ?_, ?_, ?_, rfl⟩
  · intro ef hef
    rcases hshape with ht | ⟨m, _, ht⟩ <;> rw [ht] at hef <;>
      simp only [List.mem_cons, List.not_mem_nil, or_false, List.mem_map] at hef
    · right
      exact hef
    · rcases hef with hef | ⟨s, _, hef⟩
      · right
        exact hef
      · exact Or.inl ⟨s, hef.symm⟩
  · intro p hp
    rcases hshape with ht | ⟨m, _, ht⟩ <;> rw [ht] at hp <;> simp at hp
  · intro hp
    rcases hshape with ht | ⟨m, _, ht⟩ <;> rw [ht] at hp <;> simp at hp
  · intro hp
    rcases hshape with ht | ⟨m, _, ht⟩ <;> rw [ht] at hp <;> simp at hp
  · intro a1 a2 v1 v2
    unfold runScript
    rfl

/-- Witness for C6: the file-read effect of the sample run is classified by
the frame property applied at the sample environment. -/
theorem claim_C6_witness :
    (∃ s, Effect.fileRead modelPath = Effect.stdoutWrite s) ∨
    Effect.fileRead modelPath = Effect.fileRead modelPath :=
  (claim_C6 envSample).1 (Effect.fileRead modelPath) (by decide)

/-- C7: The second copy of the inspection script, which per the spec differs
from the first only in comment text, is behaviorally equivalent to it: both
produce identical results (output, exit code and failure) for every
invocation environment. -/
theorem claim_C7 (env : Env) : runScript2 env = runScript env := rfl

/-- C8: For every successfully loaded model, the literal header line is
printed exactly once, before any tensor block; for a valid model whose input
declaration list is empty, the header line is the entire output. -/
theorem claim_C8 (env : Env) (m : ModelProto)
    (h : env.files modelPath = some (FileData.validModel m)) :
    ∃ rest, stdoutLines (runScript env) = "Model Inputs:" :: rest ∧
      (∀ l, l ∈ rest → l ≠ ("Model Inputs:")) ∧
      (m.graph.input = [] → stdoutLines (runScript env) = ["Model Inputs:"]) := by
  have hok : onnx_load env.files modelPath = Except.ok m := by
    unfold onnx_load
    rw [h]
  refine ⟨m.graph.input.flatMap tensorBlock, ?_, ?_, ?_⟩
  · rw [stdoutLines_ok env m hok]
    rfl
  · intro l hl
    rcases List.mem_flatMap.mp hl with ⟨t, _, hlt⟩
    exact tensorBlock_ne_header t l hlt
  · intro hnil
    rw [stdoutLines_ok env m hok]
    simp [scriptOutput, hnil]

/-- Witness for C8 at the environment holding the empty-input model. -/
theorem claim_C8_witness :
    ∃ rest, stdoutLines (runScript envEmptyModel) = "Model Inputs:" :: rest ∧
      (∀ l, l ∈ rest → l ≠ ("Model Inputs:")) ∧
      (emptyModel.graph.input = [] →
        stdoutLines (runScript envEmptyModel) = ["Model Inputs:"]) :=
  claim_C8 envEmptyModel emptyModel rfl

/-- C9: All printing happens strictly after the model load succeeds: if
`onnx.load` raises for any reason, the script writes nothing at all to
standard output, not even the header line. -/
theorem claim_C9 (env : Env) (e : LoadError)
    (h : onnx_load env.files modelPath = Except.error e) :
    stdoutLines (runScript env) = [] ∧
    ∀ s, Effect.stdoutWrite s ∉ (runScript env).trace := by
  unfold runScript
  rw [h]
  refine ⟨rfl, ?_⟩
  intro s hs
  simp at hs

/-- Witness for C9 at the environment with no files. -/
theorem claim_C9_witness :
    stdoutLines (runScript envNoFile) = [] ∧
    ∀ s, Effect.stdoutWrite s ∉ (runScript envNoFile).trace :=
  claim_C9 envNoFile (LoadError.fileNotFound modelPath) rfl
